import Mathlib

/-!
Verification development for the request-binding engine of the `aiopenapi3`
repository.  Two implementations of the binding contract live in the sources:

* `src/aiopenapi3/v20/glue.py` — class `Request` (`_prepare_security`,
  `_prepare_parameters`, `_prepare_body`, `_process`), embedded below in the
  `Glue` namespace;
* `src/openapi3/paths.py` — `Operation.request`, one monolithic method,
  embedded below in the `PathsPy` namespace, split along the same section
  boundaries the method's own comments draw (security / body / parameters /
  response handling).

Python data structures are embedded as follows: `dict` becomes an ordered
association list with insert-or-overwrite update (`dictUpdate`), preserving
Python's insertion-order semantics where a replaced key keeps its position;
strings become `String` or `List Char` (for the url templates that
`str.format` walks); exceptions become `Except PyErr`.  The standard-library
collaborators the binding code calls are modelled executably: `json.dumps` /
`json.loads` as a serializer and a fuel-based parser over a `Json` value type
(numbers restricted to integers — the claims under study never exercise
floats), and `str.format` restricted to the plain `\x7bname\x7d` fields the
path templates use.
-/

/-! ### Named character constants used throughout the development -/

def lbrace : Char := Char.ofNat 123

def rbrace : Char := Char.ofNat 125

def quoteChar : Char := Char.ofNat 34

def backslashChar : Char := Char.ofNat 92

/-- Decimal-digit test on the code point, kept in `Nat` so `omega` can reason
about it. -/
def isDigitChar (c : Char) : Bool := 48 ≤ c.toNat && c.toNat ≤ 57

def digitChar (d : Nat) : Char := Char.ofNat (48 + d)

/-- Lower-case hex digit, as `json.dumps` emits in `\u00XX` escapes. -/
def hexDigitChar (d : Nat) : Char :=
  if d < 10 then Char.ofNat (48 + d) else Char.ofNat (87 + d)

def hexVal (c : Char) : Option Nat :=
  if 48 ≤ c.toNat && c.toNat ≤ 57 then some (c.toNat - 48)
  else if 97 ≤ c.toNat && c.toNat ≤ 102 then some (c.toNat - 87)
  else if 65 ≤ c.toNat && c.toNat ≤ 70 then some (c.toNat - 55)
  else none

/-! ### Ordered dictionaries (Python `dict`) -/

/-- Python `d[k] = v`: replace in place if the key exists, else append. -/
def dictUpdate {α : Type} (d : List (String × α)) (k : String) (v : α) :
    List (String × α) :=
  if d.any (fun p => p.1 == k) then
    d.map (fun p => if p.1 == k then (k, v) else p)
  else d ++ [(k, v)]

/-- Python `d.get(k)` / `d[k]` lookup (first occurrence). -/
def dictGet {α : Type} (d : List (String × α)) (k : String) : Option α :=
  (d.find? (fun p => p.1 == k)).map Prod.snd

/-- Python `k in d`. -/
def dictMem {α : Type} (d : List (String × α)) (k : String) : Bool :=
  d.any (fun p => p.1 == k)

/-! ### JSON values

The structured values `json.dumps` / `json.loads` exchange.  Strings are kept
as `List Char` so the codec lemmas can run structural induction directly. -/

inductive Json where
  | null : Json
  | bool (b : Bool) : Json
  | num (n : Int) : Json
  | str (s : List Char) : Json
  | arr (elems : List Json) : Json
  | obj (fields : List (List Char × Json)) : Json

/-- Python `isinstance(x, (dict, list))`. -/
def Json.isContainer : Json → Bool
  | .arr _ => true
  | .obj _ => true
  | _ => false

/-! ### Serialization (modelling `json.dumps`)

Compact separators are used; `json.loads` ignores inter-token whitespace, so
the round-trip property is insensitive to this choice.  Control characters
are escaped `\u00XX` (the five short escapes `dumps` prefers denote the same
characters). -/

def serNat (n : Nat) : List Char :=
  if n < 10 then [digitChar n]
  else serNat (n / 10) ++ [digitChar (n % 10)]
  termination_by n
  decreasing_by exact Nat.div_lt_self (by omega) (by omega)

def serInt (n : Int) : List Char :=
  if n < 0 then '-' :: serNat n.natAbs else serNat n.natAbs

/-- One string character, JSON-escaped. -/
def escChar (c : Char) : List Char :=
  if c = quoteChar then [backslashChar, quoteChar]
  else if c = backslashChar then [backslashChar, backslashChar]
  else if c.toNat < 32 then
    [backslashChar, 'u', '0', '0', hexDigitChar (c.toNat / 16), hexDigitChar (c.toNat % 16)]
  else [c]

def escBody : List Char → List Char
  | [] => []
  | c :: cs => escChar c ++ escBody cs

def serStr (s : List Char) : List Char := quoteChar :: (escBody s ++ [quoteChar])

mutual

def serJson : Json → List Char
  | .num n => serInt n
  | .str s => serStr s
  | .arr xs => '[' :: (serElems xs ++ [']'])
  | .obj kvs => lbrace :: (serFields kvs ++ [rbrace])
  | .null => ['n', 'u', 'l', 'l']
  | .bool b => if b then ['t', 'r', 'u', 'e'] else ['f', 'a', 'l', 's', 'e']

def serElems : List Json → List Char
  | [] => []
  | [x] => serJson x
  | x :: y :: xs => serJson x ++ ',' :: serElems (y :: xs)

def serFields : List (List Char × Json) → List Char
  | [] => []
  | [(k, v)] => serStr k ++ ':' :: serJson v
  | (k, v) :: kv :: kvs => serStr k ++ ':' :: serJson v ++ ',' :: serFields (kv :: kvs)

end

/-! ### Parsing (modelling `json.loads`)

Structural on the input for strings and numbers; fuel-based for the mutually
nested value/array/object structure. -/

/-- Consume a maximal run of decimal digits, folding them onto `acc`. -/
def grabDigits : List Char → Nat → Nat × List Char
  | c :: cs, acc =>
      if isDigitChar c then grabDigits cs (acc * 10 + (c.toNat - 48)) else (acc, c :: cs)
  | [], acc => (acc, [])

def parseNumber : List Char → Option (Json × List Char)
  | c :: cs =>
      if c = '-' then
        match cs with
        | d :: _ =>
            if isDigitChar d then
              let (n, r) := grabDigits cs 0
              some (.num (-(n : Int)), r)
            else none
        | [] => none
      else if isDigitChar c then
        let (n, r) := grabDigits (c :: cs) 0
        some (.num (n : Int), r)
      else none
  | [] => none

/-- Parse a string body after the opening quote, undoing `escChar`. -/
def parseStringBody : List Char → Option (List Char × List Char)
  | [] => none
  | c :: rest =>
      if c = quoteChar then some ([], rest)
      else if c = backslashChar then
        match rest with
        | [] => none
        | e :: rest2 =>
            if e = quoteChar then
              (parseStringBody rest2).map (fun p => (quoteChar :: p.1, p.2))
            else if e = backslashChar then
              (parseStringBody rest2).map (fun p => (backslashChar :: p.1, p.2))
            else if e = 'u' then
              match rest2 with
              | h1 :: h2 :: h3 :: h4 :: rest3 =>
                  match hexVal h1, hexVal h2, hexVal h3, hexVal h4 with
                  | some a, some b, some c2, some d =>
                      (parseStringBody rest3).map
                        (fun p => (Char.ofNat (((a * 16 + b) * 16 + c2) * 16 + d) :: p.1, p.2))
                  | _, _, _, _ => none
              | _ => none
            else none
      else (parseStringBody rest).map (fun p => (c :: p.1, p.2))

mutual

def parseJson : Nat → List Char → Option (Json × List Char)
  | 0, _ => none
  | fuel + 1, chars =>
      if chars.take 4 = ['n', 'u', 'l', 'l'] then some (.null, chars.drop 4)
      else if chars.take 4 = ['t', 'r', 'u', 'e'] then some (.bool true, chars.drop 4)
      else if chars.take 5 = ['f', 'a', 'l', 's', 'e'] then some (.bool false, chars.drop 5)
      else
        match chars with
        | [] => none
        | c :: rest =>
            if c = quoteChar then
              (parseStringBody rest).map (fun p => (Json.str p.1, p.2))
            else if c = '[' then
              if rest.take 1 = [']'] then some (.arr [], rest.drop 1)
              else (parseElems fuel rest).map (fun p => (Json.arr p.1, p.2))
            else if c = lbrace then
              if rest.take 1 = [rbrace] then some (.obj [], rest.drop 1)
              else (parseFields fuel rest).map (fun p => (Json.obj p.1, p.2))
            else parseNumber (c :: rest)

def parseElems : Nat → List Char → Option (List Json × List Char)
  | 0, _ => none
  | fuel + 1, chars =>
      match parseJson fuel chars with
      | none => none
      | some (v, rest) =>
          match rest with
          | ']' :: r => some ([v], r)
          | ',' :: r =>
              (parseElems fuel r).map (fun p => (v :: p.1, p.2))
          | _ => none

def parseFields : Nat → List Char → Option (List (List Char × Json) × List Char)
  | 0, _ => none
  | fuel + 1, chars =>
      match chars with
      | q :: rest =>
          if q = quoteChar then
            match parseStringBody rest with
            | none => none
            | some (k, rest1) =>
                match rest1 with
                | ':' :: rest2 =>
                    match parseJson fuel rest2 with
                    | none => none
                    | some (v, rest3) =>
                        match rest3 with
                        | r0 :: r =>
                            if r0 = rbrace then some ([(k, v)], r)
                            else if r0 = ',' then
                              (parseFields fuel r).map (fun p => ((k, v) :: p.1, p.2))
                            else none
                        | [] => none
                | _ => none
          else none
      | [] => none

end

/-- The error type the embedded Python raises through.  Constructors record
which concrete exception the source raises; `attributeError` and `keyError`
are the unstructured failures Python produces on its own when the code
dereferences `None` or a missing dict key. -/
inductive PyErr where
  | missingParameter (name : String) : PyErr
  | keyError (key : String) : PyErr
  | attributeError (msg : String) : PyErr
  | typeMismatch : PyErr
  | missingBody : PyErr
  | unexpectedStatus (declared : List String) : PyErr
  | unexpectedContentType (declared : List String) : PyErr
  | unsatisfiedSecurity (accepted : List String) : PyErr
  | notImplemented (what : String) : PyErr
  | formatError (msg : String) : PyErr
  deriving DecidableEq

/-- `json.loads`: fuel is one more than the input length, which the codec
lemmas show is always enough for inputs the serializer produced. -/
def pyJsonLoads (s : List Char) : Except PyErr Json :=
  match parseJson (s.length + 1) s with
  | some (v, rest) => if rest.isEmpty then .ok v else .error (.formatError "Extra data")
  | none => .error (.formatError "JSONDecodeError")

/-! ### Codec lemmas: the parser inverts the serializer -/

/-- A continuation that cannot extend a serialized number: empty, or headed
by a non-digit.  Every delimiter the serializer emits after a number
qualifies. -/
def noDigitHead : List Char → Bool
  | [] => true
  | c :: _ => !isDigitChar c

theorem digitChar_toNat (d : Nat) (h : d < 10) : (digitChar d).toNat = 48 + d := by
  interval_cases d <;> decide

theorem isDigit_digitChar (d : Nat) (h : d < 10) : isDigitChar (digitChar d) = true := by
  interval_cases d <;> decide

theorem serNat_eq (n : Nat) :
    serNat n = (if n < 10 then [] else serNat (n / 10)) ++ [digitChar (n % 10)] := by
  rw [serNat]
  by_cases h : n < 10
  · simp [h, Nat.mod_eq_of_lt h]
  · simp [h]

theorem serNat_ne_nil (n : Nat) : serNat n ≠ [] := by
  rw [serNat_eq]; simp

theorem serNat_digits (n : Nat) : ∀ c ∈ serNat n, isDigitChar c = true := by
  induction n using Nat.strongRecOn with
  | _ n ih =>
    rw [serNat_eq]
    intro c hc
    rcases List.mem_append.mp hc with h | h
    · by_cases h10 : n < 10
      · simp [h10] at h
      · exact ih (n / 10) (Nat.div_lt_self (by omega) (by omega)) c (by simpa [h10] using h)
    · rcases List.mem_singleton.mp h with rfl
      exact isDigit_digitChar _ (Nat.mod_lt _ (by omega))

theorem serNat_head (n : Nat) : ∃ c t, serNat n = c :: t ∧ isDigitChar c = true := by
  cases hs : serNat n with
  | nil => exact absurd hs (serNat_ne_nil n)
  | cons c t => exact ⟨c, t, rfl, serNat_digits n c (hs ▸ List.mem_cons_self c t)⟩

theorem grabDigits_stop (acc : Nat) (rest : List Char) (h : noDigitHead rest = true) :
    grabDigits rest acc = (acc, rest) := by
  cases rest with
  | nil => rfl
  | cons c t =>
      simp only [noDigitHead, Bool.not_eq_true'] at h
      simp [grabDigits, h]

theorem grabDigits_run (ds : List Char) (hds : ∀ c ∈ ds, isDigitChar c = true) :
    ∀ (rest : List Char) (acc : Nat),
      grabDigits (ds ++ rest) acc
        = grabDigits rest (ds.foldl (fun a c => a * 10 + (c.toNat - 48)) acc) := by
  induction ds with
  | nil => intro rest acc; rfl
  | cons c t ih =>
      intro rest acc
      have hc := hds c (by simp)
      simp only [List.cons_append, grabDigits, hc, if_pos, List.foldl_cons]
      exact ih (fun x hx => hds x (by simp [hx])) rest _

theorem foldl_serNat (n : Nat) :
    (serNat n).foldl (fun a c => a * 10 + (c.toNat - 48)) 0 = n := by
  induction n using Nat.strongRecOn with
  | _ n ih =>
    rw [serNat_eq, List.foldl_append]
    by_cases h : n < 10
    · simp only [if_pos h, List.foldl_nil, List.foldl_cons]
      rw [digitChar_toNat _ (Nat.mod_lt _ (by omega))]
      omega
    · simp only [if_neg h, List.foldl_cons, List.foldl_nil]
      rw [ih (n / 10) (Nat.div_lt_self (by omega) (by omega)),
          digitChar_toNat _ (Nat.mod_lt _ (by omega))]
      omega

theorem grabDigits_serNat (n : Nat) (rest : List Char) (h : noDigitHead rest = true) :
    grabDigits (serNat n ++ rest) 0 = (n, rest) := by
  rw [grabDigits_run (serNat n) (serNat_digits n) rest 0, foldl_serNat,
      grabDigits_stop _ _ h]

theorem digit_ne (c : Char) (h : isDigitChar c = true) :
    c ≠ '-' ∧ c ≠ 'n' ∧ c ≠ 't' ∧ c ≠ 'f' ∧ c ≠ quoteChar ∧ c ≠ '[' ∧ c ≠ lbrace ∧
    c ≠ ']' ∧ c ≠ ',' ∧ c ≠ rbrace ∧ c ≠ ':' := by
  refine ⟨?_, ?_, ?_, ?_, ?_, ?_, ?_, ?_, ?_, ?_, ?_⟩ <;>
    exact fun hcd => absurd h (by rw [hcd]; decide)

theorem parseNumber_serInt (n : Int) (rest : List Char) (h : noDigitHead rest = true) :
    parseNumber (serInt n ++ rest) = some (.num n, rest) := by
  by_cases hn : n < 0
  · obtain ⟨c, t, hct, hc⟩ := serNat_head n.natAbs
    have harg : serInt n ++ rest = '-' :: (serNat n.natAbs ++ rest) := by
      simp [serInt, hn]
    have hgrab := grabDigits_serNat n.natAbs rest h
    rw [hct, List.cons_append] at hgrab
    have hval : -((n.natAbs : Nat) : Int) = n := by omega
    rw [harg, hct]
    simp only [parseNumber, if_pos rfl, List.cons_append, hc, if_pos, hgrab, hval]
  · obtain ⟨c, t, hct, hc⟩ := serNat_head n.natAbs
    have harg : serInt n ++ rest = c :: (t ++ rest) := by
      simp [serInt, hn, hct]
    have hminus : ¬(c = '-') := (digit_ne c hc).1
    have hgrab := grabDigits_serNat n.natAbs rest h
    rw [hct] at hgrab
    rw [harg]
    simp only [parseNumber, if_neg hminus, hc, if_pos, List.cons_append] at *
    rw [hgrab]
    have : ((n.natAbs : Nat) : Int) = n := by omega
    rw [this]

theorem hexVal_hexDigitChar (d : Nat) (h : d < 16) : hexVal (hexDigitChar d) = some d := by
  interval_cases d <;> decide

theorem parseStringBody_escChar (c : Char) (tail : List Char) :
    parseStringBody (escChar c ++ tail)
      = (parseStringBody tail).map (fun p => (c :: p.1, p.2)) := by
  have hbq : ¬(backslashChar = quoteChar) := by decide
  have huq : ¬('u' = quoteChar) := by decide
  have hub : ¬('u' = backslashChar) := by decide
  have h0 : hexVal '0' = some 0 := by decide
  by_cases hq : c = quoteChar
  · subst hq
    simp only [escChar, if_pos rfl, List.cons_append, List.nil_append]
    rw [parseStringBody.eq_def]
    simp [hbq]
  · by_cases hb : c = backslashChar
    · subst hb
      simp only [escChar, if_neg hbq, if_pos rfl, List.cons_append, List.nil_append]
      rw [parseStringBody.eq_def]
      simp [hbq]
    · by_cases h32 : c.toNat < 32
      · have hd1 : c.toNat / 16 < 16 := by omega
        have hd2 : c.toNat % 16 < 16 := Nat.mod_lt _ (by omega)
        have harith : ((0 * 16 + 0) * 16 + c.toNat / 16) * 16 + c.toNat % 16 = c.toNat := by
          omega
        simp only [escChar, if_neg hq, if_neg hb, if_pos h32, List.cons_append,
          List.nil_append]
        rw [parseStringBody.eq_def]
        simp only [hbq, huq, hub, h0, hexVal_hexDigitChar _ hd1,
          hexVal_hexDigitChar _ hd2, if_neg, if_pos, ite_true, ite_false,
          eq_self_iff_true, if_false, if_true]
        have hdm : c.toNat / 16 * 16 + c.toNat % 16 = c.toNat := by omega
        simp [hbq, huq, hub, hdm, Char.ofNat_toNat]
      · simp only [escChar, if_neg hq, if_neg hb, if_neg h32, List.cons_append,
          List.nil_append]
        rw [parseStringBody.eq_def]
        simp [hq, hb]

theorem parseStringBody_escBody (s : List Char) (rest : List Char) :
    parseStringBody (escBody s ++ quoteChar :: rest) = some (s, rest) := by
  induction s with
  | nil =>
      show parseStringBody (quoteChar :: rest) = some ([], rest)
      rw [parseStringBody.eq_def]
      simp
  | cons c cs ih =>
      rw [escBody, List.append_assoc, parseStringBody_escChar, ih]
      rfl

theorem take_tok_ne {c d : Char} (h : ¬(c = d)) (l m : List Char) (k : Nat) :
    ¬((c :: l).take (k + 1) = d :: m) := by
  rw [List.take_succ_cons]
  simp [h]

theorem serInt_head (n : Int) :
    ∃ c t, serInt n = c :: t ∧ (c = '-' ∨ isDigitChar c = true) := by
  by_cases hn : n < 0
  · exact ⟨'-', serNat n.natAbs, by simp [serInt, hn], Or.inl rfl⟩
  · obtain ⟨c, t, hct, hc⟩ := serNat_head n.natAbs
    exact ⟨c, t, by simp [serInt, hn, hct], Or.inr hc⟩

theorem serInt_head_ne (n : Int) :
    ∃ c t, serInt n = c :: t ∧ ¬(c = 'n') ∧ ¬(c = 't') ∧ ¬(c = 'f') ∧
      ¬(c = quoteChar) ∧ ¬(c = '[') ∧ ¬(c = lbrace) ∧ ¬(c = ']') := by
  obtain ⟨c, t, hct, hcase⟩ := serInt_head n
  rcases hcase with rfl | hd
  · exact ⟨'-', t, hct, by decide, by decide, by decide, by decide, by decide,
      by decide, by decide⟩
  · obtain ⟨_, h2, h3, h4, h5, h6, h7, h8, _, _, _⟩ := digit_ne c hd
    exact ⟨c, t, hct, h2, h3, h4, h5, h6, h7, h8⟩

theorem serJson_length_pos (v : Json) : 1 ≤ (serJson v).length := by
  cases v with
  | null => simp [serJson]
  | bool b => cases b <;> simp [serJson]
  | num n =>
      obtain ⟨c, t, hct, _⟩ := serInt_head n
      simp [serJson, hct]
  | str s => simp [serJson, serStr]
  | arr xs => simp [serJson]
  | obj kvs => simp [serJson]

theorem serJson_head (v : Json) : ∃ c t, serJson v = c :: t ∧ ¬(c = ']') := by
  cases v with
  | null => exact ⟨'n', ['u', 'l', 'l'], by simp [serJson], by decide⟩
  | bool b =>
      cases b with
      | true => exact ⟨'t', ['r', 'u', 'e'], by simp [serJson], by decide⟩
      | false => exact ⟨'f', ['a', 'l', 's', 'e'], by simp [serJson], by decide⟩
  | num n =>
      obtain ⟨c, t, hct, _, _, _, _, _, _, h8⟩ := serInt_head_ne n
      exact ⟨c, t, by simp [serJson, hct], h8⟩
  | str s =>
      exact ⟨quoteChar, escBody s ++ [quoteChar], by simp [serJson, serStr], by decide⟩
  | arr xs => exact ⟨'[', serElems xs ++ [']'], by simp [serJson], by decide⟩
  | obj kvs => exact ⟨lbrace, serFields kvs ++ [rbrace], by simp [serJson], by decide⟩

theorem serElems_head (x : Json) (xs : List Json) :
    ∃ c t, serElems (x :: xs) = c :: t ∧ ¬(c = ']') := by
  obtain ⟨c, t, hct, h1⟩ := serJson_head x
  cases xs with
  | nil => exact ⟨c, t, by simp [serElems, hct], h1⟩
  | cons y ys =>
      exact ⟨c, t ++ ',' :: serElems (y :: ys), by simp [serElems, hct], h1⟩

theorem serFields_head (k : List Char) (v : Json) (kvs : List (List Char × Json)) :
    ∃ t, serFields ((k, v) :: kvs) = quoteChar :: t := by
  cases kvs with
  | nil =>
      exact ⟨escBody k ++ quoteChar :: ':' :: serJson v, by simp [serFields, serStr]⟩
  | cons kv2 kvs2 =>
      exact ⟨escBody k ++ quoteChar :: ':' :: (serJson v ++ ',' :: serFields (kv2 :: kvs2)),
        by simp [serFields, serStr]⟩

/-- One successor-fuel step of `parseJson` on a non-keyword head. -/
theorem parseJson_succ_cons (fuel : Nat) (c : Char) (l : List Char)
    (hn : ¬(c = 'n')) (ht : ¬(c = 't')) (hf : ¬(c = 'f')) :
    parseJson (fuel + 1) (c :: l)
      = (if c = quoteChar then
           (parseStringBody l).map (fun p => (Json.str p.1, p.2))
         else if c = '[' then
           if l.take 1 = [']'] then some (.arr [], l.drop 1)
           else (parseElems fuel l).map (fun p => (Json.arr p.1, p.2))
         else if c = lbrace then
           if l.take 1 = [rbrace] then some (.obj [], l.drop 1)
           else (parseFields fuel l).map (fun p => (Json.obj p.1, p.2))
         else parseNumber (c :: l)) := by
  simp only [parseJson]
  rw [if_neg (show ¬((c :: l).take 4 = ['n', 'u', 'l', 'l']) from take_tok_ne hn _ _ 3),
      if_neg (show ¬((c :: l).take 4 = ['t', 'r', 'u', 'e']) from take_tok_ne ht _ _ 3),
      if_neg (show ¬((c :: l).take 5 = ['f', 'a', 'l', 's', 'e']) from take_tok_ne hf _ _ 4)]

mutual

theorem rtVal : ∀ (v : Json) (fuel : Nat) (rest : List Char),
    (serJson v).length ≤ fuel → noDigitHead rest = true →
    parseJson fuel (serJson v ++ rest) = some (v, rest)
  | .null, fuel, rest, hfuel, _ => by
      cases fuel with
      | zero => have := serJson_length_pos .null; omega
      | succ f =>
          have hser : serJson Json.null ++ rest = 'n' :: 'u' :: 'l' :: 'l' :: rest := by
            simp [serJson]
          rw [hser]
          simp only [parseJson]
          rw [show ('n' :: 'u' :: 'l' :: 'l' :: rest).take 4 = ['n', 'u', 'l', 'l'] from rfl,
              if_pos rfl,
              show ('n' :: 'u' :: 'l' :: 'l' :: rest).drop 4 = rest from rfl]
  | .bool true, fuel, rest, hfuel, _ => by
      cases fuel with
      | zero => have := serJson_length_pos (.bool true); omega
      | succ f =>
          have hser : serJson (Json.bool true) ++ rest = 't' :: 'r' :: 'u' :: 'e' :: rest := by
            simp [serJson]
          rw [hser]
          simp only [parseJson]
          rw [show ('t' :: 'r' :: 'u' :: 'e' :: rest).take 4 = ['t', 'r', 'u', 'e'] from rfl,
              if_neg (by decide), if_pos rfl,
              show ('t' :: 'r' :: 'u' :: 'e' :: rest).drop 4 = rest from rfl]
  | .bool false, fuel, rest, hfuel, _ => by
      cases fuel with
      | zero => have := serJson_length_pos (.bool false); omega
      | succ f =>
          have hser : serJson (Json.bool false) ++ rest
              = 'f' :: 'a' :: 'l' :: 's' :: 'e' :: rest := by
            simp [serJson]
          rw [hser]
          simp only [parseJson]
          rw [show ('f' :: 'a' :: 'l' :: 's' :: 'e' :: rest).take 4 = ['f', 'a', 'l', 's'] from rfl,
              if_neg (by decide), if_neg (by decide),
              show ('f' :: 'a' :: 'l' :: 's' :: 'e' :: rest).take 5
                = ['f', 'a', 'l', 's', 'e'] from rfl,
              if_pos rfl,
              show ('f' :: 'a' :: 'l' :: 's' :: 'e' :: rest).drop 5 = rest from rfl]
  | .num n, fuel, rest, hfuel, hrest => by
      cases fuel with
      | zero => have := serJson_length_pos (.num n); omega
      | succ f =>
          obtain ⟨c, t, hct, h2, h3, h4, h5, h6, h7, _⟩ := serInt_head_ne n
          have hser : serJson (Json.num n) ++ rest = c :: (t ++ rest) := by
            simp [serJson, hct]
          rw [hser, parseJson_succ_cons f c _ h2 h3 h4,
              if_neg h5, if_neg h6, if_neg h7,
              ← List.cons_append, ← hct]
          have hser2 : serJson (Json.num n) = serInt n := by simp [serJson]
          exact parseNumber_serInt n rest hrest
  | .str s, fuel, rest, hfuel, _ => by
      cases fuel with
      | zero => have := serJson_length_pos (.str s); omega
      | succ f =>
          have hser : serJson (Json.str s) ++ rest
              = quoteChar :: (escBody s ++ quoteChar :: rest) := by
            simp [serJson, serStr]
          rw [hser, parseJson_succ_cons f quoteChar _ (by decide) (by decide) (by decide),
              if_pos rfl, parseStringBody_escBody]
          rfl
  | .arr [], fuel, rest, hfuel, _ => by
      cases fuel with
      | zero => have := serJson_length_pos (.arr []); omega
      | succ f =>
          have hser : serJson (Json.arr []) ++ rest = '[' :: (']' :: rest) := by
            simp [serJson, serElems]
          rw [hser, parseJson_succ_cons f '[' _ (by decide) (by decide) (by decide),
              if_neg (by decide), if_pos rfl,
              if_pos (show (']' :: rest).take 1 = [']'] from rfl),
              show (']' :: rest).drop 1 = rest from rfl]
  | .arr (x :: xs), fuel, rest, hfuel, hrest => by
      cases fuel with
      | zero => have := serJson_length_pos (.arr (x :: xs)); omega
      | succ f =>
          obtain ⟨c0, t0, hse, hne⟩ := serElems_head x xs
          have hser : serJson (Json.arr (x :: xs)) ++ rest
              = '[' :: (serElems (x :: xs) ++ ']' :: rest) := by
            simp [serJson]
          have hlen : (serElems (x :: xs)).length + 1 ≤ f := by
            simp only [serJson, List.length_cons, List.length_append,
              List.length_singleton] at hfuel
            omega
          rw [hser, parseJson_succ_cons f '[' _ (by decide) (by decide) (by decide),
              if_neg (by decide), if_pos rfl, hse, List.cons_append,
              if_neg (show ¬((c0 :: (t0 ++ ']' :: rest)).take 1 = [']']) from by
                rw [show (c0 :: (t0 ++ ']' :: rest)).take 1 = [c0] from rfl]
                simp [hne]),
              ← List.cons_append, ← hse,
              rtElems x xs f rest hlen hrest]
          rfl
  | .obj [], fuel, rest, hfuel, _ => by
      cases fuel with
      | zero => have := serJson_length_pos (.obj []); omega
      | succ f =>
          have hser : serJson (Json.obj []) ++ rest = lbrace :: (rbrace :: rest) := by
            simp [serJson, serFields]
          rw [hser, parseJson_succ_cons f lbrace _ (by decide) (by decide) (by decide),
              if_neg (by decide), if_neg (by decide), if_pos rfl,
              if_pos (show (rbrace :: rest).take 1 = [rbrace] from rfl),
              show (rbrace :: rest).drop 1 = rest from rfl]
  | .obj ((k, v) :: kvs), fuel, rest, hfuel, hrest => by
      cases fuel with
      | zero => have := serJson_length_pos (.obj ((k, v) :: kvs)); omega
      | succ f =>
          obtain ⟨t1, hsf⟩ := serFields_head k v kvs
          have hser : serJson (Json.obj ((k, v) :: kvs)) ++ rest
              = lbrace :: (serFields ((k, v) :: kvs) ++ rbrace :: rest) := by
            simp [serJson]
          have hlen : (serFields ((k, v) :: kvs)).length + 1 ≤ f := by
            simp only [serJson, List.length_cons, List.length_append,
              List.length_singleton] at hfuel
            omega
          rw [hser, parseJson_succ_cons f lbrace _ (by decide) (by decide) (by decide),
              if_neg (by decide), if_neg (by decide), if_pos rfl, hsf, List.cons_append,
              if_neg (show ¬((quoteChar :: (t1 ++ rbrace :: rest)).take 1 = [rbrace]) from by
                rw [show (quoteChar :: (t1 ++ rbrace :: rest)).take 1 = [quoteChar] from rfl]
                decide),
              ← List.cons_append, ← hsf,
              rtFields k v kvs f rest hlen hrest]
          rfl
  termination_by v _ _ _ _ => sizeOf v

theorem rtElems : ∀ (x : Json) (xs : List Json) (fuel : Nat) (rest : List Char),
    (serElems (x :: xs)).length + 1 ≤ fuel → noDigitHead rest = true →
    parseElems fuel (serElems (x :: xs) ++ ']' :: rest) = some (x :: xs, rest)
  | x, [], fuel, rest, hfuel, hrest => by
      cases fuel with
      | zero => omega
      | succ f =>
          have hone : serElems [x] = serJson x := by simp [serElems]
          have hlen : (serJson x).length ≤ f := by rw [hone] at hfuel; omega
          simp only [parseElems]
          rw [hone, rtVal x f (']' :: rest) hlen (by rfl)]
          rfl
  | x, y :: ys, fuel, rest, hfuel, hrest => by
      cases fuel with
      | zero => omega
      | succ f =>
          have hsplit : serElems (x :: y :: ys) = serJson x ++ ',' :: serElems (y :: ys) := by
            simp [serElems]
          have hxlen : (serJson x).length ≤ f := by
            rw [hsplit] at hfuel
            simp only [List.length_append, List.length_cons] at hfuel
            omega
          have hylen : (serElems (y :: ys)).length + 1 ≤ f := by
            have hxpos := serJson_length_pos x
            rw [hsplit] at hfuel
            simp only [List.length_append, List.length_cons] at hfuel
            omega
          simp only [parseElems]
          rw [hsplit, List.append_assoc, List.cons_append,
              rtVal x f (',' :: (serElems (y :: ys) ++ ']' :: rest)) hxlen (by rfl)]
          show (parseElems f (serElems (y :: ys) ++ ']' :: rest)).map
              (fun p => (x :: p.1, p.2)) = some (x :: y :: ys, rest)
          rw [rtElems y ys f rest hylen hrest]
          rfl
  termination_by x xs _ _ _ _ => sizeOf x + sizeOf xs

theorem rtFields : ∀ (k : List Char) (v : Json) (kvs : List (List Char × Json))
    (fuel : Nat) (rest : List Char),
    (serFields ((k, v) :: kvs)).length + 1 ≤ fuel → noDigitHead rest = true →
    parseFields fuel (serFields ((k, v) :: kvs) ++ rbrace :: rest)
      = some ((k, v) :: kvs, rest)
  | k, v, [], fuel, rest, hfuel, hrest => by
      cases fuel with
      | zero => omega
      | succ f =>
          have hone : serFields [(k, v)] = serStr k ++ ':' :: serJson v := by
            simp [serFields]
          have hvlen : (serJson v).length ≤ f := by
            rw [hone] at hfuel
            simp only [serStr, List.length_append, List.length_cons] at hfuel
            omega
          have harg : serFields [(k, v)] ++ rbrace :: rest
              = quoteChar :: (escBody k ++ quoteChar :: (':' :: (serJson v ++ rbrace :: rest))) := by
            simp [hone, serStr]
          simp only [parseFields]
          rw [harg]
          show (if quoteChar = quoteChar then
              match parseStringBody (escBody k ++ quoteChar :: (':' :: (serJson v ++ rbrace :: rest))) with
              | none => none
              | some (k2, rest1) =>
                  match rest1 with
                  | ':' :: rest2 =>
                      match parseJson f rest2 with
                      | none => none
                      | some (v2, rest3) =>
                          match rest3 with
                          | r0 :: r =>
                              if r0 = rbrace then some ([(k2, v2)], r)
                              else if r0 = ',' then
                                (parseFields f r).map (fun p => ((k2, v2) :: p.1, p.2))
                              else none
                          | [] => none
                  | _ => none
            else none) = some ([(k, v)], rest)
          rw [if_pos rfl, parseStringBody_escBody]
          show (match parseJson f (serJson v ++ rbrace :: rest) with
              | none => none
              | some (v2, rest3) =>
                  match rest3 with
                  | r0 :: r =>
                      if r0 = rbrace then some ([(k, v2)], r)
                      else if r0 = ',' then
                        (parseFields f r).map (fun p => ((k, v2) :: p.1, p.2))
                      else none
                  | [] => none) = some ([(k, v)], rest)
          rw [rtVal v f (rbrace :: rest) hvlen (by rfl)]
          show (if rbrace = rbrace then some ([(k, v)], rest)
              else if rbrace = ',' then
                (parseFields f rest).map (fun p => ((k, v) :: p.1, p.2))
              else none) = some ([(k, v)], rest)
          rw [if_pos rfl]
  | k, v, (k2, v2) :: kvs2, fuel, rest, hfuel, hrest => by
      cases fuel with
      | zero => omega
      | succ f =>
          have hsplit : serFields ((k, v) :: (k2, v2) :: kvs2)
              = serStr k ++ ':' :: serJson v ++ ',' :: serFields ((k2, v2) :: kvs2) := by
            simp [serFields]
          have hvlen : (serJson v).length ≤ f := by
            rw [hsplit] at hfuel
            simp only [serStr, List.length_append, List.length_cons] at hfuel
            omega
          have hklen : (serFields ((k2, v2) :: kvs2)).length + 1 ≤ f := by
            rw [hsplit] at hfuel
            simp only [serStr, List.length_append, List.length_cons] at hfuel
            omega
          have harg : serFields ((k, v) :: (k2, v2) :: kvs2) ++ rbrace :: rest
              = quoteChar :: (escBody k ++ quoteChar ::
                  (':' :: (serJson v
                    ++ ',' :: (serFields ((k2, v2) :: kvs2) ++ rbrace :: rest)))) := by
            simp [hsplit, serStr]
          simp only [parseFields]
          rw [harg]
          show (if quoteChar = quoteChar then
              match parseStringBody (escBody k ++ quoteChar ::
                  (':' :: (serJson v
                    ++ ',' :: (serFields ((k2, v2) :: kvs2) ++ rbrace :: rest)))) with
              | none => none
              | some (kx, rest1) =>
                  match rest1 with
                  | ':' :: rest2 =>
                      match parseJson f rest2 with
                      | none => none
                      | some (vx, rest3) =>
                          match rest3 with
                          | r0 :: r =>
                              if r0 = rbrace then some ([(kx, vx)], r)
                              else if r0 = ',' then
                                (parseFields f r).map (fun p => ((kx, vx) :: p.1, p.2))
                              else none
                          | [] => none
                  | _ => none
            else none) = some ((k, v) :: (k2, v2) :: kvs2, rest)
          rw [if_pos rfl, parseStringBody_escBody]
          show (match parseJson f
                (serJson v ++ ',' :: (serFields ((k2, v2) :: kvs2) ++ rbrace :: rest)) with
              | none => none
              | some (vx, rest3) =>
                  match rest3 with
                  | r0 :: r =>
                      if r0 = rbrace then some ([(k, vx)], r)
                      else if r0 = ',' then
                        (parseFields f r).map (fun p => ((k, vx) :: p.1, p.2))
                      else none
                  | [] => none) = some ((k, v) :: (k2, v2) :: kvs2, rest)
          rw [rtVal v f (',' :: (serFields ((k2, v2) :: kvs2) ++ rbrace :: rest)) hvlen (by rfl)]
          show (if (',' : Char) = rbrace then
                some ([(k, v)], serFields ((k2, v2) :: kvs2) ++ rbrace :: rest)
              else if (',' : Char) = ',' then
                (parseFields f (serFields ((k2, v2) :: kvs2) ++ rbrace :: rest)).map
                  (fun p => ((k, v) :: p.1, p.2))
              else none) = some ((k, v) :: (k2, v2) :: kvs2, rest)
          rw [if_neg (by decide), if_pos rfl, rtFields k2 v2 kvs2 f rest hklen hrest]
          rfl
  termination_by _ v kvs _ _ _ _ => sizeOf v + sizeOf kvs

end

/-- `json.loads` inverts `json.dumps` on every structured value. -/
theorem pyJsonLoads_serJson (v : Json) : pyJsonLoads (serJson v) = .ok v := by
  have h := rtVal v ((serJson v).length + 1) [] (by omega) (by rfl)
  rw [List.append_nil] at h
  rw [pyJsonLoads, h]
  rfl

/-! ### `str.format` (the named-field subset the path templates use) -/

/-- Python `template.format(**args)` restricted to plain named fields.  The
`Option` argument is `none` while scanning literal text and `some acc`
(collected field-name characters, reversed) inside a replacement field.  A
missing key raises `KeyError`, exactly as `str.format` does; doubled braces
denote literal brace characters. -/
def pyFormatGo (args : List (String × String)) :
    Option (List Char) → List Char → Except PyErr (List Char)
  | none, [] => .ok []
  | some _, [] => .error (.formatError "expected close brace before end of string")
  | none, c :: rest =>
      if c = lbrace then
        match rest with
        | c2 :: rest2 =>
            if c2 = lbrace then (pyFormatGo args none rest2).map (fun t => lbrace :: t)
            else if c2 = rbrace then
              match dictGet args "" with
              | none => .error (.keyError "")
              | some v => (pyFormatGo args none rest2).map (fun t => v.toList ++ t)
            else pyFormatGo args (some [c2]) rest2
        | [] => .error (.formatError "expected close brace before end of string")
      else if c = rbrace then
        match rest with
        | c2 :: rest2 =>
            if c2 = rbrace then (pyFormatGo args none rest2).map (fun t => rbrace :: t)
            else .error (.formatError "single close brace in format string")
        | [] => .error (.formatError "single close brace in format string")
      else (pyFormatGo args none rest).map (fun t => c :: t)
  | some acc, c :: rest =>
      if c = rbrace then
        match dictGet args (String.mk acc.reverse) with
        | none => .error (.keyError (String.mk acc.reverse))
        | some v => (pyFormatGo args none rest).map (fun t => v.toList ++ t)
      else pyFormatGo args (some (c :: acc)) rest

/-- `template.format(**args)`. -/
def pyFormat (args : List (String × String)) (template : List Char) :
    Except PyErr (List Char) :=
  pyFormatGo args none template

/-! ### The specification object model (the slice the binding engine reads) -/

/-- A parameter as the binder consumes it: name, location (`in`), required
flag. -/
structure Param where
  name : String
  in_ : String
  required : Bool
  deriving DecidableEq

/-- A security requirement: the scheme name it references (these objects
carry exactly one key). -/
structure SecReq where
  name : String
  deriving DecidableEq

/-- A security scheme definition (a `securityDefinitions` entry). -/
structure SecScheme where
  type : String
  in_ : String
  name : String
  deriving DecidableEq

/-- The mutable request accumulator `self.req` of glue.py. -/
structure Req where
  url : List Char
  params : List (String × String)
  headers : List (String × String)
  cookies : List (String × String)
  auth : Option String
  content : Option (List Char)
  deriving DecidableEq

/-- The raw transport response. -/
structure Envelope where
  status_code : Nat
  headers : List (String × String)
  text : List Char
  deriving DecidableEq

/-- A v2.0 response object as `Glue` reads it: its schema, if any. -/
structure GlueResp where
  schema_ : Option String
  deriving DecidableEq

/-- A media-type entry of an openapi3 `Response.content` map. -/
structure Media where
  schemaName : String
  deriving DecidableEq

/-- An openapi3 `Response`: `content` is `none` when the document declares no
content map. -/
structure PathsResp where
  content : Option (List (String × Media))
  deriving DecidableEq

/-- An openapi3 `RequestBody`: required flag and declared content types. -/
structure BodySpec where
  required : Bool
  content : List String
  deriving DecidableEq

/-- Caller-supplied body data: a native structured value or a typed model
instance whose plain mapping form is `v`. -/
inductive PyVal where
  | json (v : Json) : PyVal
  | model (v : Json) : PyVal

/-- The five message plugin hooks, caller-pluggable by operationId. -/
structure Hooks where
  marshalled : Json → Json
  sending : List Char → List Char
  received : List Char → List Char
  parsed : Json → Json
  unmarshalled : Json → Json

def idHooks : Hooks := ⟨id, id, id, id, id⟩

/-- Modelled from the spec: the data-model layer (`construct(schema, value) ->
TypedValue`, spec section 6) is an excluded external collaborator.  The typed
value is represented by the structured value itself, so `schema.model(data)`
acts as the identity on the parsed value. -/
def modelConstruct (_schemaName : Option String) (v : Json) : Json := v

def pyLower (s : String) : String := String.mk (s.toList.map Char.toLower)

/-- Python `content_type.lower().partition(";")[0]`: everything before the
first semicolon. -/
def partitionSemi (s : String) : String :=
  String.mk (s.toList.takeWhile (fun c => c != ';'))

/-! ### `Glue`: src/aiopenapi3/v20/glue.py, class `Request` -/

/-- glue.py 79-87: the merged accepted-parameter dict.  Operation parameters
come first in the filtered chain, path-level parameters second, each inserted
with `accepted_parameters.update(...)`, so a later (path-level) entry
overwrites an earlier (operation-level) one of the same name. -/
def Glue.acceptedParameters (opParams pathParams : List Param) :
    List (String × Param) :=
  ((opParams ++ pathParams).filter (fun x => x.in_ != "body")).foldl
    (fun d p => dictUpdate d p.name p) []

/-- glue.py 89-110: one iteration of the `for name, spec in
accepted_parameters.items()` loop.  The state is the collected
`path_parameters` dict plus the request being populated. -/
def Glue.bindParam (parameters : Option (List (String × String)))
    (st : List (String × String) × Req) (entry : String × Param) :
    Except PyErr (List (String × String) × Req) :=
  let name := entry.1
  let spec := entry.2
  let supplied := match parameters with
    | none => none
    | some ps => dictGet ps name
  match supplied with
  | none => if spec.required then .error (.missingParameter name) else .ok st
  | some value =>
      let pathParameters := if spec.in_ = "path" then dictUpdate st.1 name value else st.1
      let req := st.2
      let req := if spec.in_ = "query" then
          { req with params := dictUpdate req.params name value } else req
      let req := if spec.in_ = "header" then
          { req with headers := dictUpdate req.headers name value } else req
      let req := if spec.in_ = "cookie" then
          { req with cookies := dictUpdate req.cookies name value } else req
      .ok (pathParameters, req)

/-- glue.py 77-112: `Request._prepare_parameters` — route every parameter,
collecting the `path`-located ones into `path_parameters`, then apply
`self.req.url.format(**path_parameters)` exactly once at the end. -/
def Glue.prepareParameters (opParams pathParams : List Param)
    (parameters : Option (List (String × String))) (req : Req) :
    Except PyErr Req := do
  let st ← (Glue.acceptedParameters opParams pathParams).foldlM
    (Glue.bindParam parameters) ([], req)
  let url ← pyFormat st.1 req.url
  .ok { st.2 with url := url }

/-- glue.py 46-51: the credential loop — the first credential-map entry whose
scheme name occurs in the effective requirement list wins, and only that one
is applied (`break` out of both loops). -/
def Glue.resolveLoop (security : List SecReq) :
    List (String × String) → Option (SecReq × String)
  | [] => none
  | (scheme, value) :: rest =>
      match security.find? (fun x => x.name == scheme) with
      | some r => some (r, value)
      | none => Glue.resolveLoop security rest

/-- glue.py 58-76: `Request._prepare_secschemes` (v2.0 scheme dispatch;
`basic` sets `req.auth`, `apiKey` writes to query/header/cookie — the cookie
arm assigns a fresh one-entry dict). -/
def Glue.prepareSecschemes (secDefs : List (String × SecScheme))
    (r : SecReq) (value : String) (req : Req) : Except PyErr Req :=
  match dictGet secDefs r.name with
  | none => .error (.keyError r.name)
  | some ss =>
      let req := if ss.type = "basic" then { req with auth := some value } else req
      if ss.type = "apiKey" then
        let req := if ss.in_ = "query" then
            { req with params := dictUpdate req.params ss.name value } else req
        let req := if ss.in_ = "header" then
            { req with headers := dictUpdate req.headers ss.name value } else req
        let req := if ss.in_ = "cookie" then { req with cookies := [(ss.name, value)] }
          else req
        .ok req
      else .ok req

/-- glue.py 38-56: `Request._prepare_security`.  `operation.security == []`
(an explicitly empty list) disables security; otherwise the effective list is
`(operation.security or []) + root.security` — the operation list (or `[]`
when absent) concatenated with the spec-wide defaults.  When credentials are
present but none matches, the `raise ValueError(f"... \x7b', '.join(
self.operation.security.keys())\x7d")` line first evaluates `.keys()` on a
list (or on `None`), so Python raises `AttributeError` before the intended
`ValueError` is constructed. -/
def Glue.prepareSecurity (opSecurity : Option (List SecReq))
    (rootSecurity : List SecReq) (credentials : List (String × String))
    (secDefs : List (String × SecScheme)) (req : Req) : Except PyErr Req :=
  let security := if opSecurity = some [] then [] else opSecurity.getD [] ++ rootSecurity
  if credentials.isEmpty || security.isEmpty then .ok req
  else
    match Glue.resolveLoop security credentials with
    | some rv => Glue.prepareSecschemes secDefs rv.1 rv.2 req
    | none => .error (.attributeError "list object has no attribute keys")

/-- glue.py 130-137: the `application/json` encode pipeline — `marshalled`
hook, `json.dumps`, `.encode()`, `sending` hook, then set content and the
Content-Type header. -/
def Glue.encodeBody (hooks : Hooks) (v : Json) (req : Req) : Except PyErr Req :=
  let marshalled := hooks.marshalled v
  let dumped := serJson marshalled
  let sending := hooks.sending dumped
  .ok { req with
          content := some sending,
          headers := dictUpdate req.headers "Content-Type" "application/json" }

/-- glue.py 114-139: `Request._prepare_body`.  `hasBodyParam` is whether the
`self.data` property finds an operation parameter with `in == "body"`
(otherwise the body step is skipped); `dataRequired` models the truthiness of
`self.data.required`.  A dict or list passes through; a pydantic model is
converted with `.dict()`; anything else raises `TypeError`. -/
def Glue.prepareBody (hasBodyParam : Bool) (dataRequired : Bool)
    (consumes : List String) (hooks : Hooks) (data : Option PyVal) (req : Req) :
    Except PyErr Req :=
  if !hasBodyParam then .ok req
  else if data.isNone && dataRequired then .error .missingBody
  else if consumes.contains "application/json" then
    match data with
    | some (.json v) =>
        if v.isContainer then Glue.encodeBody hooks v req else .error .typeMismatch
    | some (.model v) => Glue.encodeBody hooks v req
    | none => .error .typeMismatch
  else .error (.notImplemented "consumes")

/-- glue.py 157-173: the status lookup of `Request._process` — exact string
match first, then the literal `"default"` key, else the unexpected-status
failure naming the declared codes. -/
def Glue.findExpectedResponse (responses : List (String × GlueResp))
    (statusCode : Nat) : Except PyErr GlueResp :=
  let sc := toString statusCode
  match dictGet responses sc with
  | some r => .ok r
  | none =>
      match dictGet responses "default" with
      | some r => .ok r
      | none => .error (.unexpectedStatus (responses.map Prod.fst))

/-- glue.py 155-192: `Request._process`.  After the status lookup, `204`
returns immediately with no value; otherwise `content_type =
result.headers.get("Content-Type", None)` is read and dereferenced with
`.lower()` — an `AttributeError` when the header is absent. -/
def Glue.process (responses : List (String × GlueResp)) (hooks : Hooks)
    (result : Envelope) : Except PyErr (Option Json) :=
  match Glue.findExpectedResponse responses result.status_code with
  | .error e => .error e
  | .ok expected =>
      if toString result.status_code = "204" then .ok none
      else
        match dictGet result.headers "Content-Type" with
        | none => .error (.attributeError "NoneType object has no attribute lower")
        | some ct =>
            if partitionSemi (pyLower ct) = "application/json" then
              match pyJsonLoads (hooks.received result.text) with
              | .error e => .error e
              | .ok parsed =>
                  .ok (some (hooks.unmarshalled
                    (modelConstruct expected.schema_ (hooks.parsed parsed))))
            else .error (.notImplemented ct)

/-! ### `PathsPy`: src/openapi3/paths.py, `Operation.request` -/

/-- paths.py 213-217: merged accepted parameters — the operation-level dict
is built first, then `update`d with the path-level dict, so path-level
entries overwrite operation-level ones of the same name. -/
def PathsPy.acceptedParameters (opParams pathParams : List Param) :
    List (String × Param) :=
  let d := opParams.foldl (fun d p => dictUpdate d p.name p) []
  pathParams.foldl (fun d p => dictUpdate d p.name p) d

/-- The per-call accumulator of the openapi3 parameter loop. -/
structure PathsState where
  path : List Char
  query_params : List (String × String)
  headers : List (String × String)
  deriving DecidableEq

/-- paths.py 219-239: one iteration of the parameter loop.  A `path`
parameter is substituted into the template immediately —
`path.format(**\x7bname: value\x7d)`, one parameter at a time; a `cookie`
parameter is written to the `Cookie` header. -/
def PathsPy.bindStep (parameters : List (String × String)) (st : PathsState)
    (entry : String × Param) : Except PyErr PathsState :=
  let name := entry.1
  let spec := entry.2
  if spec.required && !dictMem parameters name then .error (.missingParameter name)
  else
    match dictGet parameters name with
    | none => .ok st
    | some value =>
        if spec.in_ = "path" then
          (pyFormat [(name, value)] st.path).map (fun p => { st with path := p })
        else if spec.in_ = "query" then
          .ok { st with query_params := dictUpdate st.query_params name value }
        else if spec.in_ = "header" then
          .ok { st with headers := dictUpdate st.headers name value }
        else if spec.in_ = "cookie" then
          .ok { st with headers := dictUpdate st.headers "Cookie" value }
        else .ok st

/-- paths.py 213-239: the whole parameter-binding section. -/
def PathsPy.bindParameters (opParams pathParams : List Param)
    (parameters : List (String × String)) (st : PathsState) :
    Except PyErr PathsState :=
  (PathsPy.acceptedParameters opParams pathParams).foldlM
    (PathsPy.bindStep parameters) st

/-- paths.py 152-161: find the first credential whose scheme name matches an
operation security requirement. -/
def PathsPy.resolveLoop (security : List SecReq) :
    List (String × String) → Option (SecReq × String)
  | [] => none
  | (scheme, value) :: rest =>
      match security.find? (fun x => x.name == scheme) with
      | some r => some (r, value)
      | none => PathsPy.resolveLoop security rest

/-- paths.py 147-165: the security guard and match.  `self.security` is the
operation's own list only (absence was normalized to `[]` at parse time);
spec-wide defaults are never consulted.  The failure branch evaluates
`self.security.keys()` on a list, so Python raises `AttributeError` before
the intended `ValueError`. -/
def PathsPy.resolveSecurity (opSecurity : List SecReq)
    (credentials : List (String × String)) :
    Except PyErr (Option (SecReq × String)) :=
  if credentials.isEmpty || opSecurity.isEmpty then .ok none
  else
    match PathsPy.resolveLoop opSecurity credentials with
    | some rv => .ok (some rv)
    | none => .error (.attributeError "list object has no attribute keys")

/-- paths.py 206-208: `\x7bk: v for k, v in data if v is not None\x7d` —
drop the `None`-valued fields of a model before dumping. -/
def dropNoneFields : Json → Json
  | .obj kvs => .obj (kvs.filter (fun kv =>
      match kv.2 with
      | .null => false
      | _ => true))
  | v => v

/-- paths.py 199-212: the request-body section.  A dict is dumped; a `Model`
is dumped after dropping `None` fields; any other data (a list, a number, a
string, `None` on an optional body) leaves `body = None` with no error while
the Content-Type header is still set. -/
def PathsPy.prepareBody (requestBody : Option BodySpec) (data : Option PyVal)
    (headers : List (String × String)) :
    Except PyErr (List (String × String) × Option (List Char)) :=
  match requestBody with
  | none => .ok (headers, none)
  | some rb =>
      if rb.required && data.isNone then .error .missingBody
      else if rb.content.contains "application/json" then
        let body : Option (List Char) :=
          match data with
          | some (.json (Json.obj kvs)) => some (serJson (Json.obj kvs))
          | some (.model v) => some (serJson (dropNoneFields v))
          | _ => none
        .ok (dictUpdate headers "Content-Type" "application/json", body)
      else .error (.notImplemented "content")

/-- paths.py 246-260: status lookup — exact string match, then `"default"`,
else the unexpected-status failure naming the declared codes. -/
def PathsPy.findExpectedResponse (responses : List (String × PathsResp))
    (statusCode : Nat) : Except PyErr PathsResp :=
  let sc := toString statusCode
  match dictGet responses sc with
  | some r => .ok r
  | none =>
      match dictGet responses "default" with
      | some r => .ok r
      | none => .error (.unexpectedStatus (responses.map Prod.fst))

/-- paths.py 262-281: media lookup within the matched response entry — exact
`content.get(content_type)` on the raw header value, then the `primary/*`
wildcard when the header contains a slash, else the unexpected-content-type
failure naming the declared media types. -/
def PathsPy.findExpectedMedia (content : List (String × Media)) (ct : String) :
    Except PyErr Media :=
  let exact := dictGet content ct
  let withWildcard :=
    match exact with
    | some m => some m
    | none =>
        if ct.toList.contains '/' then
          dictGet content (String.mk (ct.toList.takeWhile (fun c => c != '/')) ++ "/*")
        else none
  match withWildcard with
  | some m => .ok m
  | none => .error (.unexpectedContentType (content.map Prod.fst))

/-- paths.py 241-292: the response-processing tail of `Operation.request`.
There is no 204 special case.  `result.headers['Content-Type']` raises
`KeyError` when the header is absent; `expected_response.content.get(...)`
raises `AttributeError` when the matched response declares no content map;
the decode gate compares `content_type.lower()` against
`'application/json'` with no charset stripping. -/
def PathsPy.process (responses : List (String × PathsResp)) (result : Envelope) :
    Except PyErr (Option Json) :=
  match PathsPy.findExpectedResponse responses result.status_code with
  | .error e => .error e
  | .ok expected =>
      match dictGet result.headers "Content-Type" with
      | none => .error (.keyError "Content-Type")
      | some ct =>
          match expected.content with
          | none => .error (.attributeError "NoneType object has no attribute get")
          | some content =>
              match PathsPy.findExpectedMedia content ct with
              | .error e => .error e
              | .ok media =>
                  if pyLower ct = "application/json" then
                    match pyJsonLoads result.text with
                    | .error e => .error e
                    | .ok v => .ok (some (modelConstruct (some media.schemaName) v))
                  else .error (.notImplemented ct)

/-! ### Sample objects used by the claim theorems -/

def emptyReq : Req := ⟨[], [], [], [], none, none⟩

def opQueryX : Param := ⟨"x", "query", true⟩

def pathHeaderX : Param := ⟨"x", "header", false⟩

def paramA : Param := ⟨"a", "path", true⟩

def paramB : Param := ⟨"b", "path", true⟩

/-- The path template `/\x7ba\x7d/\x7bb\x7d`. -/
def tmplAB : List Char := '/' :: lbrace :: 'a' :: rbrace :: '/' :: lbrace :: 'b' :: [rbrace]

def gRespA : GlueResp := ⟨some "A"⟩

def gRespB : GlueResp := ⟨some "B"⟩

def gResp204 : GlueResp := ⟨none⟩

def pRespA : PathsResp := ⟨some [("application/json", ⟨"A"⟩)]⟩

def pResp204 : PathsResp := ⟨none⟩

def mediaJson : Media := ⟨"A"⟩

def mediaText : Media := ⟨"C"⟩

def reqOpA : SecReq := ⟨"opA"⟩

def reqRootB : SecReq := ⟨"rootB"⟩

def apiKeyHeaderB : SecScheme := ⟨"apiKey", "header", "X-Key"⟩

/-! ### The claims -/

/-- C1: the claim says the merged accepted-parameter map contains the
operation-level entry when an operation-level and a path-level parameter
share a name.  Both implementations do the opposite: the merged dict is built
by inserting operation-level entries first and then updating with path-level
entries, so on a name collision the merged map holds the path-level
parameter.  Here the operation declares required query parameter `x` and the
path declares optional header parameter `x`; the merged map returns the
path-level one in both embeddings. -/
theorem claim1_param_precedence :
    dictGet (Glue.acceptedParameters [opQueryX] [pathHeaderX]) "x" = some pathHeaderX ∧
    dictGet (PathsPy.acceptedParameters [opQueryX] [pathHeaderX]) "x" = some pathHeaderX ∧
    pathHeaderX ≠ opQueryX :=
  ⟨rfl, rfl, by decide⟩

set_option maxHeartbeats 1000000 in
/-- C2: the claim says path values are collected into a substitution map and
the template is formatted once after all are collected, so a caller that
supplies every required parameter gets a brace-free path.  glue.py does
exactly that (third and fourth conjuncts).  openapi3's `Operation.request`
instead calls `path.format(**\x7bname: value\x7d)` inside the loop, one
parameter at a time; on the two-parameter template `/\x7ba\x7d/\x7bb\x7d`
the first such call hits the unresolved `\x7bb\x7d` field and raises
`KeyError('b')` even though the caller supplied both values (first
conjunct). -/
theorem claim2_single_substitution :
    PathsPy.bindParameters [paramA, paramB] [] [("a", "1"), ("b", "2")]
        ⟨tmplAB, [], []⟩ = .error (.keyError "b") ∧
    pyFormat [("a", "1")] tmplAB = .error (.keyError "b") ∧
    Glue.prepareParameters [paramA, paramB] [] (some [("a", "1"), ("b", "2")])
        { emptyReq with url := tmplAB }
      = .ok ⟨"/1/2".toList, [], [], [], none, none⟩ ∧
    "/1/2".toList.contains lbrace = false ∧
    "/1/2".toList.contains rbrace = false :=
  ⟨rfl, rfl, rfl, rfl, rfl⟩

/-- C3: response selection in both implementations — the exact string form of
the numeric status code is looked up first; failing that, the literal
`"default"` key; failing both, the call fails with the unexpected-status
error naming the declared status codes. -/
theorem claim3_status_selection (gr : List (String × GlueResp))
    (pr : List (String × PathsResp)) (status : Nat) :
    (∀ r, dictGet gr (toString status) = some r →
        Glue.findExpectedResponse gr status = .ok r) ∧
    (dictGet gr (toString status) = none →
        (∀ d, dictGet gr "default" = some d →
            Glue.findExpectedResponse gr status = .ok d) ∧
        (dictGet gr "default" = none →
            Glue.findExpectedResponse gr status
              = .error (.unexpectedStatus (gr.map Prod.fst)))) ∧
    (∀ r, dictGet pr (toString status) = some r →
        PathsPy.findExpectedResponse pr status = .ok r) ∧
    (dictGet pr (toString status) = none →
        (∀ d, dictGet pr "default" = some d →
            PathsPy.findExpectedResponse pr status = .ok d) ∧
        (dictGet pr "default" = none →
            PathsPy.findExpectedResponse pr status
              = .error (.unexpectedStatus (pr.map Prod.fst)))) := by
  refine ⟨?_, ?_, ?_, ?_⟩
  · intro r h
    simp [Glue.findExpectedResponse, h]
  · intro h
    refine ⟨?_, ?_⟩
    · intro d hd
      simp [Glue.findExpectedResponse, h, hd]
    · intro hd
      simp [Glue.findExpectedResponse, h, hd]
  · intro r h
    simp [PathsPy.findExpectedResponse, h]
  · intro h
    refine ⟨?_, ?_⟩
    · intro d hd
      simp [PathsPy.findExpectedResponse, h, hd]
    · intro hd
      simp [PathsPy.findExpectedResponse, h, hd]

/-- Witness for C3: a declared `200` matches exactly; an undeclared `404`
falls back to `default`; with neither, the unexpected-status error lists the
declared codes. -/
theorem claim3_status_selection_witness :
    Glue.findExpectedResponse [("200", gRespA), ("default", gRespB)] 200 = .ok gRespA ∧
    Glue.findExpectedResponse [("200", gRespA), ("default", gRespB)] 404 = .ok gRespB ∧
    Glue.findExpectedResponse [("200", gRespA)] 404
      = .error (.unexpectedStatus ["200"]) ∧
    PathsPy.findExpectedResponse [("200", pRespA)] 404
      = .error (.unexpectedStatus ["200"]) :=
  ⟨(claim3_status_selection [("200", gRespA), ("default", gRespB)] [] 200).1 gRespA rfl,
   ((claim3_status_selection [("200", gRespA), ("default", gRespB)] [] 404).2.1 rfl).1
     gRespB rfl,
   (((claim3_status_selection [("200", gRespA)] [] 404).2.1 rfl).2 rfl),
   (((claim3_status_selection [] [("200", pRespA)] 404).2.2.2 rfl).2 rfl)⟩

/-- Helper: a successful decode through glue's `_process` with identity
hooks — the matched response, a non-204 status, a content type whose
lower-cased, `;`-stripped form is `application/json`, and a body that is a
serialized value decode to exactly that value. -/
theorem Glue.process_ok (responses : List (String × GlueResp)) (r : GlueResp)
    (env : Envelope) (v : Json) (ct : String)
    (hr : Glue.findExpectedResponse responses env.status_code = .ok r)
    (h204 : ¬(toString env.status_code = "204"))
    (hct : dictGet env.headers "Content-Type" = some ct)
    (hjson : partitionSemi (pyLower ct) = "application/json")
    (htext : env.text = serJson v) :
    Glue.process responses idHooks env = .ok (some v) := by
  simp [Glue.process, hr, h204, hct, hjson, htext, idHooks, modelConstruct,
    pyJsonLoads_serJson]

/-- C4: the claim says the media type is matched after stripping any
`;charset=...` suffix.  openapi3's lookup uses the raw header value: with
`application/json` declared, the received `application/json; charset=utf-8`
ends in the unexpected-content-type failure (first and fourth conjuncts),
while the bare form matches (second conjunct).  The wildcard and the failure
report behave as claimed (fifth and first conjuncts), and glue.py's own
json gate does strip the suffix, decoding the same envelope successfully
(third and sixth conjuncts). -/
theorem claim4_charset_lookup :
    PathsPy.findExpectedMedia [("application/json", mediaJson)]
        "application/json; charset=utf-8"
      = .error (.unexpectedContentType ["application/json"]) ∧
    PathsPy.findExpectedMedia [("application/json", mediaJson)] "application/json"
      = .ok mediaJson ∧
    partitionSemi (pyLower "application/json; charset=utf-8") = "application/json" ∧
    PathsPy.process [("200", pRespA)]
        ⟨200, [("Content-Type", "application/json; charset=utf-8")],
          serJson (Json.arr [])⟩
      = .error (.unexpectedContentType ["application/json"]) ∧
    PathsPy.findExpectedMedia [("text/*", mediaText)] "text/plain" = .ok mediaText ∧
    Glue.process [("200", gRespA)] idHooks
        ⟨200, [("Content-Type", "application/json; charset=utf-8")],
          serJson (Json.arr [])⟩
      = .ok (some (Json.arr [])) := by
  refine ⟨rfl, rfl, rfl, rfl, rfl, ?_⟩
  exact Glue.process_ok [("200", gRespA)] gRespA _ (Json.arr [])
    "application/json; charset=utf-8" rfl (by decide) rfl rfl rfl

/-- C5: the claim says a 204 response always skips decoding and succeeds with
an empty result.  glue.py does (first conjunct, for every header list, body,
declared schema and hook set).  openapi3's `Operation.request` has no 204
case at all: with a declared `204` entry (which carries no content map), it
proceeds to the content-type lookup and fails — `AttributeError` when a
Content-Type header is present (`None.get`), `KeyError` when it is absent. -/
theorem claim5_status_204 :
    (∀ (headers : List (String × String)) (text : List Char) (r : GlueResp)
        (hooks : Hooks),
        Glue.process [("204", r)] hooks ⟨204, headers, text⟩ = .ok none) ∧
    PathsPy.process [("204", pResp204)]
        ⟨204, [("Content-Type", "text/html")], []⟩
      = .error (.attributeError "NoneType object has no attribute get") ∧
    PathsPy.process [("204", pResp204)] ⟨204, [], []⟩
      = .error (.keyError "Content-Type") := by
  refine ⟨?_, rfl, rfl⟩
  intro headers text r hooks
  have hr : Glue.findExpectedResponse [("204", r)] 204 = .ok r := rfl
  have h204 : toString (204 : Nat) = "204" := by decide
  simp [Glue.process, hr, h204]

/-- C6: the claim says credentials are matched against exactly the
operation's own non-empty alternative list, the spec-wide defaults being
consulted only when that list is absent.  glue.py instead computes
`security = (operation.security or []) + root.security` whenever the list is
not explicitly empty: with the operation declaring only `opA`, a credential
for the spec-wide default `rootB` is accepted and its apiKey header is
injected (first conjunct).  The explicitly-empty override is honored: no
security is applied regardless of the credential map (second conjunct). -/
theorem claim6_security_scope :
    Glue.prepareSecurity (some [reqOpA]) [reqRootB] [("rootB", "k")]
        [("rootB", apiKeyHeaderB)] emptyReq
      = .ok ⟨[], [], [("X-Key", "k")], [], none, none⟩ ∧
    (∀ (credentials : List (String × String)) (secDefs : List (String × SecScheme))
        (req : Req),
        Glue.prepareSecurity (some []) [reqRootB] credentials secDefs req = .ok req) := by
  refine ⟨rfl, ?_⟩
  intro credentials secDefs req
  simp [Glue.prepareSecurity]

/-- C7: the claim says that when the credential map is non-empty and no key
matches any accepted alternative, the call fails with an unsatisfied-security
error naming the accepted scheme names.  In both implementations the `raise
ValueError(f"No security requirement satisfied (accepts ...)")` line
evaluates `.keys()` on the security **list** while building the message, so
the call fails with `AttributeError` instead — the structured error (here
`PyErr.unsatisfiedSecurity`) is never produced. -/
theorem claim7_unsatisfied_security :
    Glue.prepareSecurity (some [reqOpA]) [] [("b", "v")] [] emptyReq
      = .error (.attributeError "list object has no attribute keys") ∧
    PathsPy.resolveSecurity [reqOpA] [("b", "v")]
      = .error (.attributeError "list object has no attribute keys") ∧
    (∀ accepted, (PyErr.attributeError "list object has no attribute keys")
        ≠ .unsatisfiedSecurity accepted) := by
  refine ⟨rfl, rfl, ?_⟩
  intro accepted h
  cases h

/-- C8: the claim says body data that is neither a native mapping/sequence
nor a typed model instance fails with a type-mismatch error.  glue.py does
raise `TypeError` on a raw number (first conjunct), and converts a model
instance to its mapping form before encoding (third conjunct).  openapi3's
`Operation.request`, however, silently skips encoding for a raw number on a
required json body: no error, `body = None`, while the Content-Type header is
still set (second conjunct). -/
theorem claim8_body_type :
    Glue.prepareBody true true ["application/json"] idHooks
        (some (.json (Json.num 5))) emptyReq = .error .typeMismatch ∧
    PathsPy.prepareBody (some ⟨true, ["application/json"]⟩)
        (some (.json (Json.num 5))) []
      = .ok ([("Content-Type", "application/json")], none) ∧
    (∀ (v : Json) (req : Req),
        Glue.prepareBody true true ["application/json"] idHooks
            (some (.model v)) req
          = .ok { req with
                  content := some (serJson v),
                  headers := dictUpdate req.headers "Content-Type" "application/json" }) := by
  refine ⟨rfl, rfl, ?_⟩
  intro v req
  simp [Glue.prepareBody, Glue.encodeBody, idHooks]

/-- C9: encoding a structured value through glue's request-body encode path
and decoding the transport's echo of those bytes through its response decode
path (content type `application/json`, all pipeline hooks the identity)
returns a value structurally equal to the original input. -/
theorem claim9_roundtrip (v : Json) (h : v.isContainer = true) :
    (Glue.prepareBody true false ["application/json"] idHooks (some (.json v))
        emptyReq).bind
      (fun r => Glue.process [("200", gRespA)] idHooks
        ⟨200, [("Content-Type", "application/json")], r.content.getD []⟩)
      = .ok (some v) := by
  have hb : Glue.prepareBody true false ["application/json"] idHooks
      (some (.json v)) emptyReq
      = .ok ⟨[], [], [("Content-Type", "application/json")], [], none,
          some (serJson v)⟩ := by
    simp [Glue.prepareBody, h, Glue.encodeBody, idHooks, emptyReq, dictUpdate]
  rw [hb]
  show Glue.process [("200", gRespA)] idHooks
      ⟨200, [("Content-Type", "application/json")], serJson v⟩ = .ok (some v)
  exact Glue.process_ok [("200", gRespA)] gRespA
    ⟨200, [("Content-Type", "application/json")], serJson v⟩ v "application/json"
    (show Glue.findExpectedResponse [("200", gRespA)] 200 = .ok gRespA from rfl)
    (show ¬(toString (200 : Nat) = "204") by decide)
    (show dictGet [("Content-Type", "application/json")] "Content-Type"
      = some "application/json" from rfl)
    (show partitionSemi (pyLower "application/json") = "application/json" from rfl)
    rfl

/-- Witness for C9 at the concrete input `[1]`. -/
theorem claim9_roundtrip_witness :
    (Glue.prepareBody true false ["application/json"] idHooks
        (some (.json (Json.arr [Json.num 1]))) emptyReq).bind
      (fun r => Glue.process [("200", gRespA)] idHooks
        ⟨200, [("Content-Type", "application/json")], r.content.getD []⟩)
      = .ok (some (Json.arr [Json.num 1])) :=
  claim9_roundtrip (Json.arr [Json.num 1]) rfl

/-- C10: with a matched response entry, a non-204 status and no Content-Type
header, neither implementation produces the structured
unexpected-content-type failure: glue.py dereferences the `None` default
(`content_type.lower()` — `AttributeError`), openapi3 indexes the missing key
(`result.headers['Content-Type']` — `KeyError`). -/
theorem claim10_missing_content_type (gr : List (String × GlueResp))
    (pr : List (String × PathsResp)) (env : Envelope) (hooks : Hooks)
    (h204 : ¬(toString env.status_code = "204"))
    (hg : ∃ r, Glue.findExpectedResponse gr env.status_code = .ok r)
    (hp : ∃ r, PathsPy.findExpectedResponse pr env.status_code = .ok r)
    (hct : dictGet env.headers "Content-Type" = none) :
    Glue.process gr hooks env
      = .error (.attributeError "NoneType object has no attribute lower") ∧
    PathsPy.process pr env = .error (.keyError "Content-Type") := by
  obtain ⟨rg, hrg⟩ := hg
  obtain ⟨rp, hrp⟩ := hp
  constructor
  · simp [Glue.process, hrg, h204, hct]
  · simp [PathsPy.process, hrp, hct]

/-- Witness for C10: a matched `200` entry and an envelope with no headers. -/
theorem claim10_missing_content_type_witness :
    Glue.process [("200", gRespA)] idHooks ⟨200, [], []⟩
      = .error (.attributeError "NoneType object has no attribute lower") ∧
    PathsPy.process [("200", pRespA)] ⟨200, [], []⟩
      = .error (.keyError "Content-Type") :=
  claim10_missing_content_type [("200", gRespA)] [("200", pRespA)]
    ⟨200, [], []⟩ idHooks (by decide) ⟨gRespA, rfl⟩ ⟨pRespA, rfl⟩ rfl
